import Mathlib

/-!
Verification development for the sf-setup-sidepanel browser extension.

The repository has three components: a page Observer (content.js), a
background Coordinator (background.js and several unnamed snapshots of it),
and a Panel Renderer (sidepanel.js).  The source tree contains several
historical snapshots of each component; where snapshots disagree, each
snapshot relevant to a property is embedded separately and named after the
file it comes from (`_content` for content.js's first snapshot, `_p4` for
the unnamed part_004 snapshot, `_part1` for unnamed part_001, `_bg` /
`_bgV1` for background.js's two snapshots, `_panel` for sidepanel.js).

Machine strings are modelled as Lean `String`; JS `String.prototype.endsWith`
and `String.prototype.includes` are modelled on the underlying character
lists.  JS `new URL(u)` is modelled by `parseUrl`, a purely functional
parser covering the ordinary `scheme://host/path` URLs this extension
handles; a malformed URL is one on which `parseUrl` returns `none`,
mirroring the `try { new URL(u) } catch { ... }` pattern in the source.
-/

namespace SfSetup

/-- JS `s.endsWith(suf)`: `suf`'s characters are a suffix of `s`'s. -/
def strEndsWith (s suf : String) : Bool := suf.data.isSuffixOf s.data

/-- Contiguous-occurrence test on character lists. -/
def infixOfList (sub : List Char) : List Char → Bool
  | [] => sub.isEmpty
  | c :: rest => sub.isPrefixOf (c :: rest) || infixOfList sub rest

/-- JS `s.includes(sub)`: `sub`'s characters occur contiguously in `s`'s. -/
def containsSubstr (s sub : String) : Bool := infixOfList sub.data s.data

/-- Lowercase a string character-wise (ASCII), as `URL` does for hostnames
and as `toLowerCase()` does on the paths compared in `isSetupPage`. -/
def lowerStr (s : String) : String := ⟨s.data.map Char.toLower⟩

/-- Split a character list at the first occurrence of `sep`, returning the
part before and the part after; `none` when `sep` does not occur. -/
def splitFirst (sep : List Char) : List Char → Option (List Char × List Char)
  | [] => if sep.isEmpty then some ([], []) else none
  | c :: rest =>
    if sep.isPrefixOf (c :: rest) then some ([], (c :: rest).drop sep.length)
    else
      match splitFirst sep rest with
      | some (a, b) => some (c :: a, b)
      | none => none

/-- Take characters until the predicate holds, also returning the rest. -/
def takeUntil (p : Char → Bool) (l : List Char) : List Char × List Char :=
  (l.takeWhile (fun c => !p c), l.dropWhile (fun c => !p c))

/-- A parsed URL: the two projections of `new URL(u)` that the extension
reads, `hostname` and `pathname`. -/
structure UrlParts where
  hostname : String
  pathname : String
deriving DecidableEq

/-- Scheme validity for `parseUrl`: a letter followed by letters, digits,
`+`, `-` or `.`. -/
def schemeOk (l : List Char) : Bool :=
  match l with
  | [] => false
  | c :: rest => c.isAlpha && rest.all (fun d => d.isAlphanum || d == '+' || d == '-' || d == '.')

/-- Host characters admitted by the model. -/
def hostCharOk (c : Char) : Bool := c.isAlphanum || c == '-' || c == '.' || c == '_'

/-- Model of JS `new URL(u)` for `scheme://authority/path` URLs: extracts
the (lowercased) hostname — dropping userinfo before `@` and a port after
`:` — and the pathname up to any query or fragment (defaulting to `/`).
Returns `none` where `new URL(u)` would throw; every classifier in the
source wraps its URL parsing in `try`/`catch` and maps that case to
`false`. -/
def parseUrl (s : String) : Option UrlParts :=
  match splitFirst "://".data s.data with
  | none => none
  | some (scheme, rest) =>
    if schemeOk scheme then
      let (auth, pr) := takeUntil (fun c => c == '/' || c == '?' || c == '#') rest
      let hostport := (List.splitOn '@' auth).getLastD []
      let host := (List.splitOn ':' hostport).headD []
      if !host.isEmpty && host.all hostCharOk then
        let path :=
          match pr with
          | '/' :: _ => (takeUntil (fun c => c == '?' || c == '#') pr).1
          | _ => ['/']
        some ⟨⟨host.map Char.toLower⟩, ⟨path⟩⟩
      else none
    else none

/-- content.js (first snapshot): keys of its `SALESFORCE_DOMAINS` object —
values in that snapshot are the boolean `true`. -/
def CONTENT_DOMAINS : List String :=
  [".salesforce.com", ".force.com", ".lightning.force.com", ".visualforce.com"]

/-- part_001 / part_002 coordinator: keys of `SALESFORCE_DOMAINS`. -/
def BG_DOMAINS : List String :=
  [".salesforce.com", ".force.com", ".lightning.force.com", ".visualforce.com",
   ".salesforce-setup.com"]

/-- sidepanel.js: keys of the renderer's `SALESFORCE_DOMAINS`. -/
def RENDERER_DOMAINS : List String :=
  ["salesforce.com", "force.com", "salesforce-setup.com", "visualforce.com", "lightning.com"]

/-- Setup path fragments (`SETUP_PATTERNS` in content.js and part_001). -/
def SETUP_PATTERNS : List String :=
  ["/lightning/setup/", "/setup/", "/_ui/common/setup/"]

/-- part_004's `SALESFORCE_DOMAINS`: domain keys with their per-domain
`setupPatterns`. -/
def P4_DOMAINS : List (String × List String) :=
  [("salesforce.com", ["/lightning/setup", "/_ui/common/setup/Setup"]),
   ("force.com", ["/setup"]),
   ("salesforce-setup.com", ["*"]),
   ("visualforce.com", ["/apex/setup"]),
   ("lightning.com", ["/setup"]),
   ("sfdcstatic.com", [])]

/-- content.js (first snapshot) `isSalesforceDomain`: hostname suffix test
against `CONTENT_DOMAINS`; `false` on parse failure. -/
def isSalesforceDomain_content (u : String) : Bool :=
  match parseUrl u with
  | none => false
  | some p => CONTENT_DOMAINS.any (fun d => strEndsWith p.hostname d)

/-- content.js (first snapshot) `isSetupPage`.  After the special case for
`salesforce-setup.com` hosts, the loop matches `hostname.endsWith('.' +
domain) || hostname === domain` over `CONTENT_DOMAINS` (whose keys already
carry a leading dot, so the test is against a double-dotted suffix); on a
match it reads `config.setupPatterns` from the config value — which in this
snapshot is the boolean `true`, so the read throws a TypeError that the
surrounding `catch` converts to `false`. -/
def isSetupPage_content (u : String) : Bool :=
  match parseUrl u with
  | none => false
  | some p =>
    if strEndsWith p.hostname "salesforce-setup.com" then true
    else if CONTENT_DOMAINS.any
        (fun d => strEndsWith p.hostname ("." ++ d) || p.hostname == d) then
      false
    else false

/-- part_001 `isSalesforceDomain`: hostname suffix test against
`BG_DOMAINS`; `false` on parse failure. -/
def isSalesforceDomain_bg (u : String) : Bool :=
  match parseUrl u with
  | none => false
  | some p => BG_DOMAINS.any (fun d => strEndsWith p.hostname d)

/-- part_001 `isSetupUrl`: pathname contains one of `SETUP_PATTERNS`;
`false` on parse failure. -/
def isSetupUrl_bg (u : String) : Bool :=
  match parseUrl u with
  | none => false
  | some p => SETUP_PATTERNS.any (fun pat => containsSubstr p.pathname pat)

/-- part_004 `isSetupPage`: `true` for `salesforce-setup.com` hosts;
otherwise the first domain of `P4_DOMAINS` matching the hostname decides
via its `setupPatterns` (`*` matches everything, other patterns by
case-insensitive pathname containment); `false` on parse failure. -/
def isSetupPage_p4 (u : String) : Bool :=
  match parseUrl u with
  | none => false
  | some p =>
    if strEndsWith p.hostname "salesforce-setup.com" then true
    else
      match P4_DOMAINS.find?
          (fun e => strEndsWith p.hostname ("." ++ e.1) || p.hostname == e.1) with
      | some e =>
          e.2.any (fun pat =>
            pat == "*" || containsSubstr (lowerStr p.pathname) (lowerStr pat))
      | none => false

/-- sidepanel.js `validateSalesforceDomain`: hostname suffix test against
`RENDERER_DOMAINS` (no dot boundary); `false` on parse failure. -/
def validateSalesforceDomain (u : String) : Bool :=
  match parseUrl u with
  | none => false
  | some p => RENDERER_DOMAINS.any (fun d => strEndsWith p.hostname d)

/-! ## Coordinator state: the per-tab record table -/

/-- One per-tab record.  The JS records are plain objects whose fields come
and go; every field that any snapshot writes is modelled as an `Option`,
with `none` meaning the property is absent (or `undefined`). -/
structure TabRecord where
  isSalesforceTab : Option Bool := none
  setupActive : Option Bool := none
  setupUrl : Option String := none
  url : Option String := none
deriving DecidableEq

/-- The coordinator's `state.tabState` map, as an association list keyed by
tab id. -/
abbrev TabTable := List (Nat × TabRecord)

/-- `state.tabState.get(id)`. -/
def tget (t : TabTable) (id : Nat) : Option TabRecord :=
  match t.find? (fun e => e.1 == id) with
  | some e => some e.2
  | none => none

/-- `state.tabState.set(id, r)`. -/
def tset (t : TabTable) (id : Nat) (r : TabRecord) : TabTable :=
  match t with
  | [] => [(id, r)]
  | e :: rest => if e.1 == id then (id, r) :: rest else e :: tset rest id r

/-- `state.tabState.delete(id)`. -/
def tdel (t : TabTable) (id : Nat) : TabTable := t.filter (fun e => e.1 != id)

/-! ## Messages, responses and host commands -/

/-- A runtime message envelope: the fields the coordinator snapshots read.
`url` and `setupUrl` are `none` when the property is absent. -/
structure Msg where
  type : String
  url : Option String := none
  setupUrl : Option String := none
deriving DecidableEq

/-- JS truthiness of `message.url`: absent and the empty string are falsy. -/
def urlTruthy : Option String → Bool
  | none => false
  | some s => s != ""

/-- The sender as the handlers see it: `sender.tab?.id`. -/
structure Sender where
  tab : Option Nat
deriving DecidableEq

/-- Responses a coordinator handler can pass to `sendResponse`:
`err m` is an `{error: m}` object, `ok retried` is `{success:true}` (with
`retried:true` when `retried` is set), `stateResp` is `{state: ...}` with
an absent state for `none`, `received` is `{received:true}`, and `pending`
marks the one handler path that defers its response to an asynchronous
continuation (`openSidePanel`). -/
inductive Response where
  | err (msg : String)
  | ok (retried : Bool)
  | stateResp (r : Option TabRecord)
  | received
  | pending
deriving DecidableEq

/-- Commands a handler issues to the host platform: opening the side panel
for a tab, sending a `LOAD_SETUP` runtime message, or starting the
asynchronous `openSidePanel` routine of part_001. -/
inductive Command where
  | openPanel (tabId : Nat)
  | loadSetup (url : Option String)
  | startOpenSidePanel (tabId : Nat) (url : String)
deriving DecidableEq

/-- What one synchronous run of a message handler produces: the response
handed to `sendResponse` (or `pending`), the new tab table, and the host
commands issued. -/
structure StepResult where
  response : Response
  table : TabTable
  commands : List Command
deriving DecidableEq

/-! ## Coordinator snapshots -/

/-- part_001's `chrome.runtime.onMessage` listener.  `SETUP_LINK_CLICKED`
(with a truthy url): guard the tab id, validate the domain, update the
record, then hand off to the asynchronous `openSidePanel` (modelled by the
`startOpenSidePanel` command; its outcome is `openSidePanel_part1` below).
`SETUP_DETECTED` (with a truthy url): same guards and record update, then
acknowledge synchronously with `{success:true}` and issue no command.
`GET_TAB_STATE`: guard the tab id and return the record.  Anything else:
`{error:'Unknown message type'}`. -/
def onMessage_part1 (t : TabTable) (msg : Msg) (snd : Sender) : StepResult :=
  if msg.type == "SETUP_LINK_CLICKED" && urlTruthy msg.url then
    match snd.tab with
    | none => ⟨.err "No tab ID provided", t, []⟩
    | some tabId =>
      let u := msg.url.getD ""
      if !isSalesforceDomain_bg u then ⟨.err "Invalid Salesforce domain", t, []⟩
      else
        let cur := (tget t tabId).getD {}
        ⟨.pending, tset t tabId { cur with setupActive := some true, setupUrl := some u },
          [.startOpenSidePanel tabId u]⟩
  else if msg.type == "SETUP_DETECTED" && urlTruthy msg.url then
    match snd.tab with
    | none => ⟨.err "No tab ID provided", t, []⟩
    | some tabId =>
      let u := msg.url.getD ""
      if !isSalesforceDomain_bg u then ⟨.err "Invalid Salesforce domain", t, []⟩
      else
        let cur := (tget t tabId).getD {}
        ⟨.ok false, tset t tabId { cur with setupActive := some true, setupUrl := some u }, []⟩
  else if msg.type == "GET_TAB_STATE" then
    match snd.tab with
    | none => ⟨.err "No tab ID provided", t, []⟩
    | some tabId => ⟨.stateResp (tget t tabId), t, []⟩
  else ⟨.err "Unknown message type", t, []⟩

/-- part_001's `chrome.tabs.onRemoved` listener: drop the tab's record. -/
def onRemoved_part1 (t : TabTable) (tabId : Nat) : TabTable := tdel t tabId

/-- background.js, first snapshot (`chrome.runtime.onMessage` listener at
the top of the file).  It reads `sender.tab.id` without a guard (the model
takes the tab id directly; a tabless sender would throw into the `catch`).
`SETUP_DETECTED` spreads the old record with `setupActive: true` only — it
never writes `setupUrl` — then opens the panel and sends `LOAD_SETUP` with
`message.setupUrl`. -/
def onMessage_bgV1 (t : TabTable) (msg : Msg) (tabId : Nat) : StepResult :=
  if msg.type == "SETUP_DETECTED" then
    let cur := (tget t tabId).getD {}
    ⟨.ok false, tset t tabId { cur with setupActive := some true },
      [.openPanel tabId, .loadSetup msg.setupUrl]⟩
  else if msg.type == "GET_TAB_STATE" then ⟨.stateResp (tget t tabId), t, []⟩
  else if msg.type == "SETUP_ERROR" then ⟨.received, t, []⟩
  else ⟨.err "Unknown message type", t, []⟩

/-- background.js, second snapshot (`handleMessage`): guards the tab id,
and on `SETUP_DETECTED` updates the record (`setupActive: true`,
`setupUrl: message.url`), opens the side panel and pushes `LOAD_SETUP` —
all while handling the message. -/
def handleMessage_bg (t : TabTable) (msg : Msg) (snd : Sender) : StepResult :=
  if msg.type == "SETUP_DETECTED" then
    match snd.tab with
    | none => ⟨.err "No tab ID provided", t, []⟩
    | some tabId =>
      let cur := (tget t tabId).getD {}
      ⟨.ok false, tset t tabId { cur with setupActive := some true, setupUrl := msg.url },
        [.openPanel tabId, .loadSetup msg.url]⟩
  else if msg.type == "GET_TAB_STATE" then
    match snd.tab with
    | none => ⟨.err "No tab ID provided", t, []⟩
    | some tabId => ⟨.stateResp (tget t tabId), t, []⟩
  else if msg.type == "SETUP_ERROR" then ⟨.received, t, []⟩
  else ⟨.err "Unknown message type", t, []⟩

/-- background.js second snapshot's `isSalesforceUrl` test in the
`chrome.tabs.onUpdated` listener: the unanchored regex
`/\.(salesforce\.com|force\.com|salesforce-setup\.com)/` applied to the
whole URL string. -/
def bgIsSalesforceUrl (u : String) : Bool :=
  containsSubstr u ".salesforce.com" || containsSubstr u ".force.com" ||
    containsSubstr u ".salesforce-setup.com"

/-- background.js second snapshot's `chrome.tabs.onUpdated` listener, on a
navigation that changed the URL: it replaces the tab's record with a fresh
object `{isSalesforceTab, setupActive:false, url}` (no spread of the
previous record). -/
def onUpdated_bg (t : TabTable) (tabId : Nat) (newUrl : String) : TabTable :=
  tset t tabId
    { isSalesforceTab := some (bgIsSalesforceUrl newUrl),
      setupActive := some false,
      setupUrl := none,
      url := some newUrl }

/-! ## part_001's asynchronous `openSidePanel` (the SETUP_LINK_CLICKED
retry path) -/

/-- Outcome of one host operation (panel open or message send): success,
or rejection with an error message. -/
inductive Outcome where
  | ok
  | err (msg : String)
deriving DecidableEq

/-- The error-message class part_001 retries on. -/
def connPhrase : String := "Could not establish connection"

/-- The error-message class content.js treats as fatal to the page. -/
def ctxPhrase : String := "Extension context invalidated"

/-- Result of a full `openSidePanel` run: the response finally passed to
`sendResponse`, the list of `LOAD_SETUP` send attempts made (by target
url), and the backoff delays (ms) taken before retrying. -/
structure OpenRun where
  response : Response
  sends : List String
  retryDelaysMs : List Nat
deriving DecidableEq

/-- part_001's `openSidePanel`, driven by the outcomes of the host
operations it performs: `openRes` for `chrome.sidePanel.open`, `send1` for
the first `LOAD_SETUP` send, `send2` for the send inside the one
`setTimeout(..., 800)` retry.  The single `try`/`catch` covers both the
open and the first send; an error whose message contains `connPhrase`
schedules exactly one retry after the fixed 800 ms delay, any other error
is returned to the caller at once, and the retry's own failure is returned
with no further attempt. -/
def openSidePanel_part1 (url : String) (openRes send1 send2 : Outcome) : OpenRun :=
  match openRes with
  | .err m =>
    if containsSubstr m connPhrase then
      match send2 with
      | .ok => ⟨.ok true, [url], [800]⟩
      | .err m2 => ⟨.err m2, [url], [800]⟩
    else ⟨.err m, [], []⟩
  | .ok =>
    match send1 with
    | .ok => ⟨.ok false, [url], []⟩
    | .err m =>
      if containsSubstr m connPhrase then
        match send2 with
        | .ok => ⟨.ok true, [url, url], [800]⟩
        | .err m2 => ⟨.err m2, [url, url], [800]⟩
      else ⟨.err m, [url], []⟩

/-! ## The panel renderer (sidepanel.js) -/

/-- The renderer's `LoadingState` plus the displayed error message. -/
inductive PanelState where
  | initial
  | loading
  | loaded
  | error (msg : String)
deriving DecidableEq

/-- The renderer's mutable pieces: display state and the single live
content frame (`setupFrame`), by its `src`. -/
structure Panel where
  state : PanelState
  frame : Option String
deriving DecidableEq

/-- Response shapes the renderer passes to `sendResponse`. -/
inductive PanelResponse where
  | success
  | failure (error : String)
deriving DecidableEq

/-- sidepanel.js `handleMessage`: on `LOAD_SETUP` with a truthy url, a
valid domain loads the url into a fresh frame (display state `loading`,
the old frame replaced) and answers `{success:true}`; an invalid domain
answers `{success:false, error:'Invalid domain'}` and moves the display
state to error (`'Invalid Salesforce domain'`) without touching the frame.
Other messages are ignored (no response). -/
def handleMessage_panel (p : Panel) (msg : Msg) : Option PanelResponse × Panel :=
  if msg.type == "LOAD_SETUP" && urlTruthy msg.url then
    let u := msg.url.getD ""
    if validateSalesforceDomain u then
      (some .success, { state := .loading, frame := some u })
    else
      (some (.failure "Invalid domain"), { p with state := .error "Invalid Salesforce domain" })
  else (none, p)

/-! ## content.js's send-failure handling (the observer retry loop) -/

/-- The observer's status: `active` is content.js's `extensionActive` flag,
cleared by `cleanupExtension`. -/
structure ObsState where
  active : Bool
deriving DecidableEq

/-- content.js's error branch in `checkAndReportSetupPage`: a message
containing `ctxPhrase` runs `cleanupExtension` (permanently deactivating
the observer, no retry); one containing `connPhrase` schedules another
`checkAndReportSetupPage` via `setTimeout(..., 2000)` (the returned flag);
anything else is only logged. -/
def handleSendError_content (st : ObsState) (m : String) : ObsState × Bool :=
  if containsSubstr m ctxPhrase then (⟨false⟩, false)
  else if containsSubstr m connPhrase then (st, true)
  else (st, false)

/-- One invocation of `checkAndReportSetupPage` on a page that classifies
as Setup: it performs one `SETUP_DETECTED` send whose outcome is given,
and reports whether a retry invocation was scheduled. -/
def checkStep (st : ObsState) (r : Outcome) : ObsState × Bool :=
  match r with
  | .ok => (st, false)
  | .err m => handleSendError_content st m

/-- Total number of `SETUP_DETECTED` send attempts made by the chain of
`checkAndReportSetupPage` invocations, given the per-invocation send
outcomes: each invocation sends once, and the chain continues exactly when
the invocation scheduled a retry. -/
def runRetryLoop (st : ObsState) : List Outcome → Nat
  | [] => 0
  | o :: rest =>
    let s := checkStep st o
    if s.2 then 1 + runRetryLoop s.1 rest else 1

/-! ## Concrete inputs used by witnesses and counterexamples -/

/-- A monitored Setup URL (the spec's end-to-end scenario shape). -/
def cSetupUrl : String := "https://myorg.lightning.force.com/lightning/setup/ObjectManager/home"

/-- A monitored non-Setup URL. -/
def cNavUrl : String := "https://myorg.lightning.force.com/lightning/page/home"

/-- Projection of a `stateResp` response to the record's `setupUrl`. -/
def respSetupUrl : Response → Option String
  | .stateResp (some r) => r.setupUrl
  | _ => none

/-! ## Helper lemmas -/

theorem strEndsWith_trans {s a b : String} (h1 : strEndsWith s a = true)
    (h2 : strEndsWith a b = true) : strEndsWith s b = true := by
  unfold strEndsWith at h1 h2 ⊢
  rw [List.isSuffixOf_iff_suffix] at h1 h2 ⊢
  exact h2.trans h1

theorem tget_tset (t : TabTable) (id : Nat) (r : TabRecord) :
    tget (tset t id r) id = some r := by
  induction t with
  | nil => simp [tset, tget, List.find?]
  | cons e rest ih =>
    by_cases h : e.1 = id
    · simp [tset, tget, List.find?, h]
    · simpa [tset, tget, List.find?, h] using ih

theorem find?_filter_ne (t : TabTable) (id : Nat) :
    (t.filter (fun e => e.1 != id)).find? (fun e => e.1 == id) = none := by
  induction t with
  | nil => rfl
  | cons e rest ih =>
    rw [List.filter_cons]
    by_cases h : e.1 = id
    · simp [h, ih]
    · simp [List.find?_cons, h, ih]

theorem tget_tdel (t : TabTable) (id : Nat) :
    tget (tdel t id) id = none := by
  unfold tget tdel
  rw [find?_filter_ne]

/-- Sends counted in the observer retry loop under permanent
connection failure: one per invocation, and every invocation reschedules. -/
theorem runRetryLoop_conn (n : Nat) :
    runRetryLoop ⟨true⟩ (List.replicate n (Outcome.err connPhrase)) = n := by
  have hcs : checkStep ⟨true⟩ (Outcome.err connPhrase) = (⟨true⟩, true) := by decide
  induction n with
  | zero => rfl
  | succ k ih =>
    rw [List.replicate_succ]
    simp only [runRetryLoop, hcs, if_pos, ih]
    omega

/-! ## The claims -/

/-- C1 (counterexample).  In background.js's first `onMessage` listener,
handling `SETUP_DETECTED{url:X}` stores `setupActive: true` but never
stores a `setupUrl`, so the subsequent `GET_TAB_STATE` answer carries no
`setupUrl` — not `X` as the claim requires. -/
theorem c1_counterexample :
    (onMessage_bgV1 (onMessage_bgV1 [] ⟨"SETUP_DETECTED", some cSetupUrl, none⟩ 7).table
        ⟨"GET_TAB_STATE", none, none⟩ 7).response =
      Response.stateResp (some { setupActive := some true }) ∧
    respSetupUrl ((onMessage_bgV1 (onMessage_bgV1 [] ⟨"SETUP_DETECTED", some cSetupUrl, none⟩ 7).table
        ⟨"GET_TAB_STATE", none, none⟩ 7).response) ≠ some cSetupUrl := by
  decide

/-- C1 (amended).  In the part_001 coordinator: after it handles
`SetupDetected{url:X}` from tab `T` (with `X` a truthy URL passing its
domain validation), `GetTabState` from `T` returns a record with
`setupActive` true and `setupUrl = X`; after `T`'s close notification the
same request returns an absent state. -/
theorem c1_amended (t : TabTable) (T : Nat) (X : String)
    (hdom : isSalesforceDomain_bg X = true) (hne : (X != "") = true) :
    (∃ r, (onMessage_part1 (onMessage_part1 t ⟨"SETUP_DETECTED", some X, none⟩ ⟨some T⟩).table
            ⟨"GET_TAB_STATE", none, none⟩ ⟨some T⟩).response = Response.stateResp (some r) ∧
        r.setupActive = some true ∧ r.setupUrl = some X) ∧
    (onMessage_part1
        (onRemoved_part1 (onMessage_part1 t ⟨"SETUP_DETECTED", some X, none⟩ ⟨some T⟩).table T)
        ⟨"GET_TAB_STATE", none, none⟩ ⟨some T⟩).response = Response.stateResp none := by
  have hstep : onMessage_part1 t ⟨"SETUP_DETECTED", some X, none⟩ ⟨some T⟩ =
      ⟨.ok false,
        tset t T { (tget t T).getD {} with setupActive := some true, setupUrl := some X }, []⟩ := by
    unfold onMessage_part1
    simp +decide [urlTruthy, hne, hdom]
  rw [hstep]
  constructor
  · refine ⟨{ (tget t T).getD {} with setupActive := some true, setupUrl := some X }, ?_, rfl, rfl⟩
    unfold onMessage_part1
    simp +decide [tget_tset]
  · unfold onMessage_part1 onRemoved_part1
    simp +decide [tget_tdel]

/-- C1 (witness for the amended theorem at the scenario URL). -/
theorem c1_witness :
    isSalesforceDomain_bg cSetupUrl = true ∧ (cSetupUrl != "") = true ∧
    ((∃ r, (onMessage_part1 (onMessage_part1 [] ⟨"SETUP_DETECTED", some cSetupUrl, none⟩ ⟨some 7⟩).table
            ⟨"GET_TAB_STATE", none, none⟩ ⟨some 7⟩).response = Response.stateResp (some r) ∧
        r.setupActive = some true ∧ r.setupUrl = some cSetupUrl) ∧
      (onMessage_part1
          (onRemoved_part1 (onMessage_part1 [] ⟨"SETUP_DETECTED", some cSetupUrl, none⟩ ⟨some 7⟩).table 7)
          ⟨"GET_TAB_STATE", none, none⟩ ⟨some 7⟩).response = Response.stateResp none) :=
  ⟨by decide, by decide, c1_amended [] 7 cSetupUrl (by decide) (by decide)⟩

/-- C2 (counterexample).  background.js's `handleMessage` opens the side
panel and pushes `LOAD_SETUP` while handling a `SETUP_DETECTED` message,
so the claim that no SetupDetected handling issues a panel-open or
LoadSetup command is false on that coordinator snapshot. -/
theorem c2_counterexample :
    (handleMessage_bg [] ⟨"SETUP_DETECTED", some cSetupUrl, none⟩ ⟨some 7⟩).commands =
      [Command.openPanel 7, Command.loadSetup (some cSetupUrl)] ∧
    (handleMessage_bg [] ⟨"SETUP_DETECTED", some cSetupUrl, none⟩ ⟨some 7⟩).commands ≠ [] := by
  decide

/-- C2 (amended).  In the part_001 coordinator — the snapshot that has the
separate `SETUP_LINK_CLICKED` active-open path — handling any
`SETUP_DETECTED` message issues no host command (no panel open, no
`LOAD_SETUP` push) and answers synchronously (its response is never
deferred to an asynchronous continuation). -/
theorem c2_amended (t : TabTable) (msg : Msg) (snd : Sender)
    (h : msg.type = "SETUP_DETECTED") :
    (onMessage_part1 t msg snd).commands = [] ∧
    (onMessage_part1 t msg snd).response ≠ Response.pending := by
  obtain ⟨ty, url, surl⟩ := msg
  obtain ⟨tab⟩ := snd
  subst h
  unfold onMessage_part1
  cases tab <;> cases hu : urlTruthy url <;>
      simp [hu, (by decide : ("SETUP_DETECTED" == "SETUP_LINK_CLICKED") = false),
        (by decide : ("SETUP_DETECTED" == "SETUP_DETECTED") = true),
        (by decide : ("SETUP_DETECTED" == "GET_TAB_STATE") = false)]
  all_goals try (split <;> simp)

/-- C2 (witness). -/
theorem c2_witness :
    (onMessage_part1 [] ⟨"SETUP_DETECTED", some cSetupUrl, none⟩ ⟨some 7⟩).commands = [] ∧
    (onMessage_part1 [] ⟨"SETUP_DETECTED", some cSetupUrl, none⟩ ⟨some 7⟩).response ≠
      Response.pending :=
  c2_amended [] ⟨"SETUP_DETECTED", some cSetupUrl, none⟩ ⟨some 7⟩ rfl

/-- C3.  part_001's `openSidePanel`: when the panel open succeeds and the
first `LOAD_SETUP` send fails with a "Could not establish connection"
class error, exactly one retry send happens after the single fixed 800 ms
delay — two sends in total, never more; if the retry succeeds the caller
gets `{success:true, retried:true}`, and if it fails too the caller gets
the failure with no further attempt. -/
theorem c3_retry (url m m2 : String) (hc : containsSubstr m connPhrase = true) :
    openSidePanel_part1 url .ok (.err m) .ok = ⟨.ok true, [url, url], [800]⟩ ∧
    openSidePanel_part1 url .ok (.err m) (.err m2) = ⟨.err m2, [url, url], [800]⟩ := by
  unfold openSidePanel_part1
  constructor <;> simp [hc]

/-- C3 (witness), at the host platform's actual error message text. -/
theorem c3_witness :
    containsSubstr "Could not establish connection. Receiving end does not exist."
      connPhrase = true ∧
    (openSidePanel_part1 cSetupUrl .ok
        (.err "Could not establish connection. Receiving end does not exist.") .ok =
      ⟨.ok true, [cSetupUrl, cSetupUrl], [800]⟩ ∧
     openSidePanel_part1 cSetupUrl .ok
        (.err "Could not establish connection. Receiving end does not exist.")
        (.err "Could not establish connection. Receiving end does not exist.") =
      ⟨.err "Could not establish connection. Receiving end does not exist.",
        [cSetupUrl, cSetupUrl], [800]⟩) :=
  ⟨by decide,
   c3_retry cSetupUrl "Could not establish connection. Receiving end does not exist."
     "Could not establish connection. Receiving end does not exist." (by decide)⟩

/-- C4 (counterexample).  A tab record holding `setupUrl = cSetupUrl` loses
it when the `onUpdated` navigation handler runs: the handler writes a fresh
record with no `setupUrl` property, so `setupUrl` is cleared implicitly,
contrary to the claim. -/
theorem c4_counterexample :
    tget (onUpdated_bg
        (tset [] 7 { isSalesforceTab := some true, setupActive := some true,
                     setupUrl := some cSetupUrl, url := some cSetupUrl }) 7 cNavUrl) 7 =
      some { isSalesforceTab := some true, setupActive := some false,
             setupUrl := none, url := some cNavUrl } ∧
    respSetupUrl (Response.stateResp (tget (onUpdated_bg
        (tset [] 7 { isSalesforceTab := some true, setupActive := some true,
                     setupUrl := some cSetupUrl, url := some cSetupUrl }) 7 cNavUrl) 7)) ≠
      some cSetupUrl := by
  decide

/-- C4 (amended).  background.js's navigation-committed handling replaces
the tab's record wholesale: whatever the record held before, afterwards it
is exactly `{isSalesforceTab: <reclassified>, setupActive: false, url:
<new url>}` with no `setupUrl` — so `setupUrl` survives only until the
next navigation update, explicit overwrite, or tab close. -/
theorem c4_amended (t : TabTable) (id : Nat) (u : String) :
    tget (onUpdated_bg t id u) id =
      some { isSalesforceTab := some (bgIsSalesforceUrl u), setupActive := some false,
             setupUrl := none, url := some u } := by
  unfold onUpdated_bg
  exact tget_tset t id _

/-- C5.  The renderer's `handleMessage` on `LOAD_SETUP` with a URL failing
`validateSalesforceDomain`: it responds `{success:false, error:'Invalid
domain'}`, moves the display state to the error state, and leaves the
content frame untouched (the resulting panel differs from the input only
in its display state). -/
theorem c5_domain_rejection (p : Panel) (u : String) (hne : (u != "") = true)
    (hval : validateSalesforceDomain u = false) :
    handleMessage_panel p ⟨"LOAD_SETUP", some u, none⟩ =
      (some (PanelResponse.failure "Invalid domain"),
       { p with state := PanelState.error "Invalid Salesforce domain" }) := by
  unfold handleMessage_panel
  simp +decide [urlTruthy, hne, hval]

/-- C5 (witness), at the spec's example URL `https://evil.example.com/setup`
and a fresh panel: the response is the failure, the state becomes error,
and the frame stays absent. -/
theorem c5_witness :
    ("https://evil.example.com/setup" != "") = true ∧
    validateSalesforceDomain "https://evil.example.com/setup" = false ∧
    handleMessage_panel ⟨PanelState.initial, none⟩
        ⟨"LOAD_SETUP", some "https://evil.example.com/setup", none⟩ =
      (some (PanelResponse.failure "Invalid domain"),
       ⟨PanelState.error "Invalid Salesforce domain", none⟩) :=
  ⟨by decide, by decide,
   c5_domain_rejection ⟨PanelState.initial, none⟩ "https://evil.example.com/setup"
     (by decide) (by decide)⟩

/-- C6 (counterexample).  The two validators are not equivalent: the
renderer accepts a `salesforce-setup.com` host that the content.js
observer's classifier rejects (its domain list has no
`.salesforce-setup.com` entry). -/
theorem c6_counterexample :
    validateSalesforceDomain "https://app.salesforce-setup.com/home" = true ∧
    isSalesforceDomain_content "https://app.salesforce-setup.com/home" = false := by
  decide

/-- C6 (amended).  One inclusion does hold: every URL the content.js
observer classifies as a monitored site is accepted by the renderer's
validator — each observer suffix (`.salesforce.com`, `.force.com`,
`.lightning.force.com`, `.visualforce.com`) has a renderer suffix as its
own suffix.  The converse fails (`c6_counterexample`). -/
theorem c6_amended (u : String) (h : isSalesforceDomain_content u = true) :
    validateSalesforceDomain u = true := by
  unfold isSalesforceDomain_content at h
  unfold validateSalesforceDomain
  cases hp : parseUrl u with
  | none => rw [hp] at h; exact absurd h (by simp)
  | some p =>
    rw [hp] at h
    simp only [CONTENT_DOMAINS, List.any_cons, List.any_nil, Bool.or_eq_true,
      Bool.or_false] at h
    simp only [RENDERER_DOMAINS, List.any_cons, List.any_nil, Bool.or_eq_true,
      Bool.or_false]
    rcases h with h | h | h | h
    · exact Or.inl (strEndsWith_trans h (by decide))
    · exact Or.inr (Or.inl (strEndsWith_trans h (by decide)))
    · exact Or.inr (Or.inl (strEndsWith_trans h (by decide)))
    · exact Or.inr (Or.inr (Or.inr (Or.inl (strEndsWith_trans h (by decide)))))

/-- C6 (witness for the amended inclusion). -/
theorem c6_witness :
    isSalesforceDomain_content cSetupUrl = true ∧
    validateSalesforceDomain cSetupUrl = true :=
  ⟨by decide, c6_amended cSetupUrl (by decide)⟩

/-- C7.  Every classifier and validator in the system fails closed on a
malformed URL: when `parseUrl` returns `none` (where `new URL(u)` throws),
each one returns `false` — the `catch` branch in every source function. -/
theorem c7_malformed_fails_closed (u : String) (h : parseUrl u = none) :
    isSalesforceDomain_content u = false ∧ isSetupPage_content u = false ∧
    isSalesforceDomain_bg u = false ∧ isSetupUrl_bg u = false ∧
    isSetupPage_p4 u = false ∧ validateSalesforceDomain u = false := by
  unfold isSalesforceDomain_content isSetupPage_content isSalesforceDomain_bg
    isSetupUrl_bg isSetupPage_p4 validateSalesforceDomain
  rw [h]
  simp

/-- C7 (witness at a concrete malformed input). -/
theorem c7_witness :
    parseUrl "not a url" = none ∧
    (isSalesforceDomain_content "not a url" = false ∧ isSetupPage_content "not a url" = false ∧
     isSalesforceDomain_bg "not a url" = false ∧ isSetupUrl_bg "not a url" = false ∧
     isSetupPage_p4 "not a url" = false ∧ validateSalesforceDomain "not a url" = false) :=
  ⟨by decide, c7_malformed_fails_closed "not a url" (by decide)⟩

/-- C8.  At `https://myorg.salesforce.com/lightning/setup/SetupOneHome/home`
— a monitored URL whose path contains the configured fragment
`/lightning/setup/` — content.js's own `isSetupPage` returns `false`
(its domain table holds booleans, so the `config.setupPatterns` read never
yields patterns), while the part_001 `isSetupUrl` and part_004
`isSetupPage` snapshots both classify it as Setup, as the claim states. -/
theorem c8_eval :
    isSalesforceDomain_content "https://myorg.salesforce.com/lightning/setup/SetupOneHome/home" = true ∧
    isSetupUrl_bg "https://myorg.salesforce.com/lightning/setup/SetupOneHome/home" = true ∧
    isSetupPage_p4 "https://myorg.salesforce.com/lightning/setup/SetupOneHome/home" = true ∧
    isSetupPage_content "https://myorg.salesforce.com/lightning/setup/SetupOneHome/home" = false := by
  decide

/-- C9 (counterexample).  Under a persisting "Could not establish
connection" failure, the observer's `checkAndReportSetupPage` chain sends
without bound: no `B` bounds the number of send attempts across its
self-scheduled invocations. -/
theorem c9_counterexample :
    ¬ ∃ B : Nat, ∀ n : Nat,
        runRetryLoop ⟨true⟩ (List.replicate n (Outcome.err connPhrase)) ≤ B := by
  rintro ⟨B, hB⟩
  have h := hB (B + 1)
  rw [runRetryLoop_conn] at h
  omega

/-- C9 (amended).  content.js distinguishes the two failure classes: a
"Could not establish connection" error reschedules
`checkAndReportSetupPage` after its fixed delay with no attempt counter,
so while the failure persists the loop performs exactly one send per
invocation, indefinitely; an "Extension context invalidated" error instead
runs `cleanupExtension` — one send, no reschedule, observer permanently
deactivated. -/
theorem c9_amended :
    (∀ n : Nat, runRetryLoop ⟨true⟩ (List.replicate n (Outcome.err connPhrase)) = n) ∧
    (∀ rest : List Outcome, runRetryLoop ⟨true⟩ (Outcome.err ctxPhrase :: rest) = 1) ∧
    (checkStep ⟨true⟩ (Outcome.err ctxPhrase)).1.active = false := by
  refine ⟨runRetryLoop_conn, ?_, by decide⟩
  intro rest
  have hcs : checkStep ⟨true⟩ (Outcome.err ctxPhrase) = (⟨false⟩, false) := by decide
  simp [runRetryLoop, hcs]

/-- C10.  In the part_001 coordinator, a `SETUP_DETECTED` or
`SETUP_LINK_CLICKED` message (with its `url` field) or a `GET_TAB_STATE`
message whose sender has no tab id is answered with
`{error:'No tab ID provided'}`, the tab table is unchanged, and no host
command is issued — so the renderer's own `GET_TAB_STATE` query, sent from
the panel with no sender tab, receives this error rather than a state. -/
theorem c10_no_tab_id (t : TabTable) (msg : Msg)
    (h : (msg.type = "SETUP_DETECTED" ∨ msg.type = "SETUP_LINK_CLICKED") ∧
           urlTruthy msg.url = true ∨
         msg.type = "GET_TAB_STATE") :
    onMessage_part1 t msg ⟨none⟩ = ⟨Response.err "No tab ID provided", t, []⟩ := by
  obtain ⟨ty, url, surl⟩ := msg
  rcases h with ⟨hty | hty, hu⟩ | hty
  · subst hty
    unfold onMessage_part1
    simp [hu, (by decide : ("SETUP_DETECTED" == "SETUP_LINK_CLICKED") = false),
      (by decide : ("SETUP_DETECTED" == "SETUP_DETECTED") = true)]
  · subst hty
    unfold onMessage_part1
    simp [hu, (by decide : ("SETUP_LINK_CLICKED" == "SETUP_LINK_CLICKED") = true)]
  · subst hty
    unfold onMessage_part1
    simp [(by decide : ("GET_TAB_STATE" == "SETUP_LINK_CLICKED") = false),
      (by decide : ("GET_TAB_STATE" == "SETUP_DETECTED") = false),
      (by decide : ("GET_TAB_STATE" == "GET_TAB_STATE") = true)]

/-- C10 (witness): the renderer's tabless `GET_TAB_STATE` query. -/
theorem c10_witness :
    onMessage_part1 [] ⟨"GET_TAB_STATE", none, none⟩ ⟨none⟩ =
      ⟨Response.err "No tab ID provided", [], []⟩ :=
  c10_no_tab_id [] ⟨"GET_TAB_STATE", none, none⟩ (Or.inr rfl)

end SfSetup
